import Mathlib

/-!
Verification of the derivation helpers of the Fresco retail analytics app
(`pages/2_analytics_and_insights.py`) and of the auto-calculated fields of
the prediction page (`prediction_page.py`).

Numeric cell values are modelled over `ℚ`, with an explicit `nan`
constructor for float NaN (which fails every comparison) and a `str`
constructor for cell contents that `float(x)` cannot parse.
A dataframe is modelled as its ordered list of named columns.
-/

namespace Fresco

/-- The result of a successful Python `float(x)` conversion: either an
ordinary number or NaN. -/
inductive FloatVal where
  | num (q : ℚ)
  | nan
deriving DecidableEq, Repr

/-- One cell of a dataframe column: a number, float NaN, or a string that
`float(x)` fails to parse. -/
inductive Cell where
  | num (q : ℚ)
  | nan
  | str (s : String)
deriving DecidableEq, Repr

/-- The `float(x)` call inside the `try:` blocks of `categorize_review` and
`map_tax`: numbers and NaN convert, unparseable strings raise (`none`). -/
def cellToFloat : Cell → Option FloatVal
  | .num q => some (.num q)
  | .nan => some .nan
  | .str _ => none

/-- Python `x <= c` on a float: NaN compares false against everything. -/
def fle (x : FloatVal) (c : ℚ) : Bool :=
  match x with
  | .num q => decide (q ≤ c)
  | .nan => false

/-- Python `x == c` on a float: NaN compares false against everything. -/
def feq (x : FloatVal) (c : ℚ) : Bool :=
  match x with
  | .num q => decide (q = c)
  | .nan => false

/-- `categorize_review` from `ensure_review_level`
(`pages/2_analytics_and_insights.py`, lines 38-48):
`try: x = float(x) except: return "Unknown"`, then
`x <= 2 → "Low"`, `x == 3 → "Medium"`, else `"High"`. -/
def categorize_review (x : Cell) : String :=
  match cellToFloat x with
  | none => "Unknown"
  | some v =>
    if fle v 2 then "Low"
    else if feq v 3 then "Medium"
    else "High"

/-- `map_tax` from `ensure_tax_level`
(`pages/2_analytics_and_insights.py`, lines 73-83):
`try: x = float(x) except: return "Unknown"`, then
`x <= 95.76 → "Low"`, `x <= 349.97 → "Medium"`, else `"High"`. -/
def map_tax (x : Cell) : String :=
  match cellToFloat x with
  | none => "Unknown"
  | some v =>
    if fle v 95.76 then "Low"
    else if fle v (349.97 : ℚ) then "Medium"
    else "High"

/-- `pd.cut(v, bins=[0, 38000, 69000, 99000, M], labels=[...],
include_lowest=True)` applied to one numeric value `v`, as in
`ensure_income_category` (`pages/2_analytics_and_insights.py`, lines 53-63).
`pd.cut` produces right-closed intervals; `include_lowest=True` closes the
first interval on the left as well, so the bins are `[0, 38000]`,
`(38000, 69000]`, `(69000, 99000]`, `(99000, M]`. Values outside `[0, M]`
get no bin (pandas NaN, modelled `none`). Faithful to the source only when
the edges strictly increase, i.e. `99000 < M`; otherwise `pd.cut` raises. -/
def income_category (M : ℚ) (v : ℚ) : Option String :=
  if v < 0 then none
  else if v ≤ 38000 then some "Low"
  else if v ≤ 69000 then some "Medium"
  else if v ≤ 99000 then some "High"
  else if v ≤ M then some "Very High"
  else none

/-- Rank of an income-category label, for stating monotonicity:
Low < Medium < High < Very High. -/
def labelRank : Option String → ℕ
  | some "Medium" => 1
  | some "High" => 2
  | some "Very High" => 3
  | _ => 0

/-- A dataframe: its ordered list of named columns, each a list of cells. -/
structure DataFrame where
  cols : List (String × List Cell)
deriving DecidableEq, Repr

/-- `df.columns`: the column names, in order. -/
def DataFrame.columns (df : DataFrame) : List String := df.cols.map Prod.fst

/-- `df[name]` as a read: the cells of the first column named `name`,
or `none` when the column is absent (pandas raises `KeyError`). -/
def DataFrame.getCol (df : DataFrame) (name : String) : Option (List Cell) :=
  (df.cols.find? (fun p => p.1 = name)).map Prod.snd

/-- `df[name] = vals` as a write: replace the column when it exists,
otherwise append it as the last column. -/
def DataFrame.setCol (df : DataFrame) (name : String) (vals : List Cell) :
    DataFrame :=
  if name ∈ df.columns then
    ⟨df.cols.map (fun p => if p.1 = name then (name, vals) else p)⟩
  else ⟨df.cols ++ [(name, vals)]⟩

/-- `ensure_review_level(df, reviews_col)`
(`pages/2_analytics_and_insights.py`, lines 31-51): return `df` unchanged
when `Review_Level` is already a column, otherwise add
`df["Review_Level"] = df[reviews_col].apply(categorize_review)`.
`none` models the `KeyError` pandas raises when `reviews_col` is absent. -/
def ensure_review_level (df : DataFrame) (reviews_col : String) :
    Option DataFrame :=
  if "Review_Level" ∈ df.columns then some df
  else
    (df.getCol reviews_col).map (fun vals =>
      df.setCol "Review_Level" (vals.map (fun c => .str (categorize_review c))))

/-- `ensure_tax_level(df, tax_col)`
(`pages/2_analytics_and_insights.py`, lines 65-86): return `df` unchanged
when `Tax_Level` is already a column, otherwise add
`df["Tax_Level"] = df[tax_col].apply(map_tax)`. -/
def ensure_tax_level (df : DataFrame) (tax_col : String) : Option DataFrame :=
  if "Tax_Level" ∈ df.columns then some df
  else
    (df.getCol tax_col).map (fun vals =>
      df.setCol "Tax_Level" (vals.map (fun c => .str (map_tax c))))

/-- `df[income_col].max()`: the maximum of the numeric entries of a column,
skipping NaN; `none` when there is no numeric entry. -/
def colMax (vals : List Cell) : Option ℚ :=
  vals.foldl
    (fun acc c =>
      match c with
      | .num q => match acc with | none => some q | some m => some (max m q)
      | _ => acc)
    none

/-- The value `pd.cut` stores for one cell of the income column: the bin
label for a number, NaN for NaN. (Only reached on numeric-or-NaN cells;
on a string cell `pd.cut` raises before getting here.) -/
def cutCell (M : ℚ) : Cell → Cell
  | .num q =>
    match income_category M q with
    | some lab => .str lab
    | none => .nan
  | .nan => .nan
  | .str s => .str s

/-- `ensure_income_category(df, income_col)`
(`pages/2_analytics_and_insights.py`, lines 53-63): return `df` unchanged
when `Income_Category` is already a column, otherwise
`df["Income_Category"] = pd.cut(df[income_col], bins=[0, 38000, 69000,
99000, df[income_col].max()], labels=[...], include_lowest=True)`.
`none` models the exceptions of the source: `KeyError` when `income_col` is
absent, `TypeError` from `pd.cut` on a non-numeric column, and `ValueError`
when the bin edges do not strictly increase (max ≤ 99000, or no numeric
entry so that the max is NaN). -/
def ensure_income_category (df : DataFrame) (income_col : String) :
    Option DataFrame :=
  if "Income_Category" ∈ df.columns then some df
  else
    match df.getCol income_col with
    | none => none
    | some vals =>
      if vals.any (fun c => match c with | .str _ => true | _ => false) then
        none
      else
        match colMax vals with
        | none => none
        | some M =>
          if M ≤ 99000 then none
          else some (df.setCol "Income_Category" (vals.map (cutCell M)))

/-- `first_col(df, candidates)`
(`pages/2_analytics_and_insights.py`, lines 89-97): the first candidate
name that is a column of `df`, or `None` when none is. -/
def first_col (df : DataFrame) (candidates : List String) : Option String :=
  match candidates with
  | [] => none
  | c :: rest => if c ∈ df.columns then some c else first_col df rest

/-- Auto-calculation `Price = Quantity * Unit_Price`
(`prediction_page.py`, line 62). -/
def price (Quantity Unit_Price : ℚ) : ℚ := Quantity * Unit_Price

/-- Auto-calculation `total_price = Price + Tax`
(`prediction_page.py`, line 63). -/
def total_price (Quantity Unit_Price Tax : ℚ) : ℚ :=
  price Quantity Unit_Price + Tax

/-- Auto-calculation `tax_ratio = Tax / (Price + 1)`
(`prediction_page.py`, line 65). -/
def tax_ratio (Quantity Unit_Price Tax : ℚ) : ℚ :=
  Tax / (price Quantity Unit_Price + 1)

/-- C3: the prediction adapter computes `Price = Quantity * Unit_Price`,
`total_price = Price + Tax` and `tax_ratio = Tax / (Price + 1)`; the
denominator is nonzero whenever `Price` is non-negative; and the two
concrete scenarios from the spec evaluate as stated. -/
theorem C3_prediction_adapter :
    (∀ Quantity Unit_Price Tax : ℚ,
      price Quantity Unit_Price = Quantity * Unit_Price ∧
      total_price Quantity Unit_Price Tax = price Quantity Unit_Price + Tax ∧
      tax_ratio Quantity Unit_Price Tax = Tax / (price Quantity Unit_Price + 1) ∧
      (0 ≤ price Quantity Unit_Price → price Quantity Unit_Price + 1 ≠ 0)) ∧
    price 3 776.17 = 2328.51 ∧
    total_price 3 776.17 241.24 = 2569.75 ∧
    tax_ratio 3 776.17 241.24 = 241.24 / 2329.51 ∧
    price 1 0 = 0 ∧ total_price 1 0 0 = 0 ∧ tax_ratio 1 0 0 = 0 := by
  refine ⟨fun Q U T => ⟨rfl, rfl, rfl, fun h => ?_⟩, ?_, ?_, ?_, ?_, ?_, ?_⟩
  · have hpos : (0 : ℚ) < price Q U + 1 := by linarith
    exact hpos.ne'
  all_goals norm_num [price, total_price, tax_ratio]

/-- Witness for C3 at `Quantity = 2`, `Unit_Price = 5`, `Tax = 7`. -/
theorem C3_prediction_adapter_witness : price 2 5 + 1 ≠ 0 :=
  (C3_prediction_adapter.1 2 5 7).2.2.2 (by norm_num [price])

/-- C4: `categorize_review` sends numeric `q ≤ 2` to `"Low"`, `3` to
`"Medium"`, numeric `q > 3` to `"High"`, unparseable input to `"Unknown"`,
and is total with output always among those four labels. -/
theorem C4_categorize_review_cases (x : Cell) (q : ℚ) :
    (x = .num q → q ≤ 2 → categorize_review x = "Low") ∧
    (x = .num 3 → categorize_review x = "Medium") ∧
    (x = .num q → 3 < q → categorize_review x = "High") ∧
    (cellToFloat x = none → categorize_review x = "Unknown") ∧
    categorize_review x ∈ ["Low", "Medium", "High", "Unknown"] := by
  refine ⟨?_, ?_, ?_, ?_, ?_⟩
  · rintro rfl hq
    simp [categorize_review, cellToFloat, fle, hq]
  · rintro rfl
    norm_num [categorize_review, cellToFloat, fle, feq]
  · rintro rfl h3
    have h1 : ¬ q ≤ 2 := by linarith
    have h2 : q ≠ 3 := by linarith
    simp [categorize_review, cellToFloat, fle, feq, h1, h2]
  · intro hx
    simp [categorize_review, hx]
  · cases x with
    | num q => simp only [categorize_review, cellToFloat]; split_ifs <;> simp
    | nan => simp [categorize_review, cellToFloat, fle, feq]
    | str s => simp [categorize_review, cellToFloat]

/-- Witness for C4 at the numeric input `1`. -/
theorem C4_categorize_review_cases_witness :
    categorize_review (.num 1) = "Low" :=
  (C4_categorize_review_cases (.num 1) 1).1 rfl (by norm_num)

/-- C5: `map_tax` sends numeric `q ≤ 95.76` to `"Low"`,
`95.76 < q ≤ 349.97` to `"Medium"`, numeric `q > 349.97` to `"High"`,
unparseable input to `"Unknown"`, and is total with output always among
those four labels. -/
theorem C5_map_tax_cases (x : Cell) (q : ℚ) :
    (x = .num q → q ≤ 95.76 → map_tax x = "Low") ∧
    (x = .num q → 95.76 < q → q ≤ 349.97 → map_tax x = "Medium") ∧
    (x = .num q → 349.97 < q → map_tax x = "High") ∧
    (cellToFloat x = none → map_tax x = "Unknown") ∧
    map_tax x ∈ ["Low", "Medium", "High", "Unknown"] := by
  refine ⟨?_, ?_, ?_, ?_, ?_⟩
  · rintro rfl hq
    simp [map_tax, cellToFloat, fle, hq]
  · rintro rfl hlo hhi
    have h1 : ¬ q ≤ (95.76 : ℚ) := by linarith
    simp [map_tax, cellToFloat, fle, h1, hhi]
  · rintro rfl h3
    have h1 : ¬ q ≤ (95.76 : ℚ) := by linarith
    have h2 : ¬ q ≤ (349.97 : ℚ) := by linarith
    simp [map_tax, cellToFloat, fle, h1, h2]
  · intro hx
    simp [map_tax, hx]
  · cases x with
    | num q => simp only [map_tax, cellToFloat]; split_ifs <;> simp
    | nan => simp [map_tax, cellToFloat, fle]
    | str s => simp [map_tax, cellToFloat]

/-- Witness for C5 at the numeric input `50`. -/
theorem C5_map_tax_cases_witness : map_tax (.num 50) = "Low" :=
  (C5_map_tax_cases (.num 50) 50).1 rfl (by norm_num)

theorem columns_setCol_new (df : DataFrame) (t : String) (vals : List Cell)
    (h : t ∉ df.columns) :
    (df.setCol t vals).columns = df.columns ++ [t] := by
  unfold DataFrame.setCol
  rw [if_neg h]
  unfold DataFrame.columns
  simp

theorem mem_columns_setCol (df : DataFrame) (t : String) (vals : List Cell) :
    t ∈ (df.setCol t vals).columns := by
  unfold DataFrame.setCol
  by_cases h : t ∈ df.columns
  · rw [if_pos h]
    unfold DataFrame.columns at h ⊢
    obtain ⟨p, hp, hfst⟩ := List.mem_map.mp h
    refine List.mem_map.mpr
      ⟨if p.1 = t then (t, vals) else p, List.mem_map_of_mem _ hp, ?_⟩
    rw [if_pos hfst]
  · rw [if_neg h]
    unfold DataFrame.columns
    simp

theorem getCol_setCol_old (df : DataFrame) (t c : String) (vals : List Cell)
    (ht : t ∉ df.columns) (hc : c ∈ df.columns) :
    (df.setCol t vals).getCol c = df.getCol c := by
  unfold DataFrame.setCol DataFrame.getCol
  rw [if_neg ht, List.find?_append]
  have hsome : (df.cols.find? (fun p => p.1 = c)).isSome := by
    rw [List.find?_isSome]
    obtain ⟨p, hp, hfst⟩ := List.mem_map.mp hc
    exact ⟨p, hp, by simp [hfst]⟩
  obtain ⟨v, hv⟩ := Option.isSome_iff_exists.mp hsome
  rw [hv]
  rfl

theorem getCol_setCol_self (df : DataFrame) (t : String) (vals : List Cell)
    (ht : t ∉ df.columns) :
    (df.setCol t vals).getCol t = some vals := by
  unfold DataFrame.setCol DataFrame.getCol
  rw [if_neg ht, List.find?_append]
  have hnone : df.cols.find? (fun p => p.1 = t) = none := by
    rw [List.find?_eq_none]
    intro p hp
    simp only [decide_eq_true_eq]
    intro hpt
    exact ht (List.mem_map.mpr ⟨p, hp, hpt⟩)
  rw [hnone, List.find?_cons_of_pos _ (by simp)]
  rfl

/-- C1 counterexample: the claim puts each interior boundary in the higher
bin, so it asserts `income_category` sends `38000` (with dataset maximum
`200000 ≥ 99000`) to `"Medium"`; the code's `pd.cut` bins are right-closed
and send it to `"Low"`. -/
theorem C1_boundary_counterexample :
    (99000 : ℚ) ≤ 200000 ∧
    income_category 200000 38000 = some "Low" ∧
    income_category 200000 38000 ≠ some "Medium" := by
  decide

/-- C1 amended: with dataset maximum `M > 99000` (for `M ≤ 99000` the
source's `pd.cut` call raises), the bins are right-closed with the lowest
edge inclusive: `[0, 38000] → "Low"`, `(38000, 69000] → "Medium"`,
`(69000, 99000] → "High"`, `(99000, M] → "Very High"`; each interior
boundary value belongs to the lower bin. -/
theorem C1_income_bins (M v : ℚ) (hM : 99000 < M) :
    (0 ≤ v → v ≤ 38000 → income_category M v = some "Low") ∧
    (38000 < v → v ≤ 69000 → income_category M v = some "Medium") ∧
    (69000 < v → v ≤ 99000 → income_category M v = some "High") ∧
    (99000 < v → v ≤ M → income_category M v = some "Very High") := by
  refine ⟨fun h1 h2 => ?_, fun h1 h2 => ?_, fun h1 h2 => ?_, fun h1 h2 => ?_⟩ <;>
    · unfold income_category
      split_ifs <;> first | rfl | linarith

/-- Witness for C1 at `M = 200000`, `v = 100000`. -/
theorem C1_income_bins_witness :
    income_category 200000 100000 = some "Very High" :=
  (C1_income_bins 200000 100000 (by norm_num)).2.2.2 (by norm_num) (by norm_num)

/-- C2 counterexample: the claim says every income value of a dataset with
fixed maximum `M` gets one of the four labels, never missing; but in the
dataset `[-1, 200000]` (maximum `200000`) the value `-1` lies below the
lowest bin edge `0`, so `pd.cut` assigns it no label (NaN). -/
theorem C2_missing_counterexample :
    colMax [Cell.num (-1), Cell.num 200000] = some 200000 ∧
    income_category 200000 (-1) = none := by
  decide

/-- C2 amended: with dataset maximum `M > 99000`, every income value `v`
with `0 ≤ v ≤ M` gets one of the four labels, and the label rank
(Low < Medium < High < Very High) is monotone non-decreasing in `v` on
that range. -/
theorem C2_income_label_monotone (M v v₁ v₂ : ℚ) (hM : 99000 < M) :
    (0 ≤ v → v ≤ M →
      income_category M v = some "Low" ∨
      income_category M v = some "Medium" ∨
      income_category M v = some "High" ∨
      income_category M v = some "Very High") ∧
    (0 ≤ v₁ → v₁ ≤ v₂ → v₂ ≤ M →
      labelRank (income_category M v₁) ≤ labelRank (income_category M v₂)) := by
  constructor
  · intro h0 hv
    unfold income_category
    split_ifs <;> first | tauto | linarith
  · intro h0 h12 h2M
    unfold income_category
    split_ifs <;> first | decide | linarith

/-- Witness for C2 at `M = 200000`, `v₁ = 10000`, `v₂ = 150000`. -/
theorem C2_income_label_monotone_witness :
    labelRank (income_category 200000 10000) ≤
      labelRank (income_category 200000 150000) :=
  (C2_income_label_monotone 200000 0 10000 150000 (by norm_num)).2
    (by norm_num) (by norm_num) (by norm_num)

/-- The end-to-end scenario dataset of the spec: one `Income` column
holding the values [10000, 50000, 90000, 200000]. -/
def scenarioDF : DataFrame :=
  ⟨[("Income", [.num 10000, .num 50000, .num 90000, .num 200000])]⟩

/-- C8: on the scenario dataset the derivation uses maximum `200000` and
assigns 10000 → "Low", 50000 → "Medium", 90000 → "High",
200000 → "Very High"; running `ensure_income_category` appends exactly that
`Income_Category` column. -/
theorem C8_end_to_end :
    colMax [Cell.num 10000, .num 50000, .num 90000, .num 200000] =
      some 200000 ∧
    income_category 200000 10000 = some "Low" ∧
    income_category 200000 50000 = some "Medium" ∧
    income_category 200000 90000 = some "High" ∧
    income_category 200000 200000 = some "Very High" ∧
    ensure_income_category scenarioDF "Income" =
      some ⟨[("Income", [.num 10000, .num 50000, .num 90000, .num 200000]),
             ("Income_Category",
              [.str "Low", .str "Medium", .str "High", .str "Very High"])]⟩ := by
  decide

/-- C6: each derivation function is a no-op (returns the dataset unchanged)
when its target column already exists, and hence applying any of the three
twice equals applying it once. -/
theorem C6_derivations_idempotent (df : DataFrame) (src : String) :
    ("Review_Level" ∈ df.columns → ensure_review_level df src = some df) ∧
    ("Income_Category" ∈ df.columns →
      ensure_income_category df src = some df) ∧
    ("Tax_Level" ∈ df.columns → ensure_tax_level df src = some df) ∧
    (∀ r, ensure_review_level df src = some r →
      ensure_review_level r src = some r) ∧
    (∀ r, ensure_income_category df src = some r →
      ensure_income_category r src = some r) ∧
    (∀ r, ensure_tax_level df src = some r →
      ensure_tax_level r src = some r) := by
  refine ⟨?_, ?_, ?_, ?_, ?_, ?_⟩
  · intro h
    unfold ensure_review_level
    rw [if_pos h]
  · intro h
    unfold ensure_income_category
    rw [if_pos h]
  · intro h
    unfold ensure_tax_level
    rw [if_pos h]
  · intro r hr
    unfold ensure_review_level at hr ⊢
    by_cases h : "Review_Level" ∈ df.columns
    · rw [if_pos h] at hr
      cases hr
      rw [if_pos h]
    · rw [if_neg h] at hr
      obtain ⟨vals, hv, hset⟩ := Option.map_eq_some'.mp hr
      rw [if_pos (hset ▸ mem_columns_setCol df "Review_Level" _)]
  · intro r hr
    unfold ensure_income_category at hr ⊢
    by_cases h : "Income_Category" ∈ df.columns
    · rw [if_pos h] at hr
      cases hr
      rw [if_pos h]
    · rw [if_neg h] at hr
      cases hgc : df.getCol src with
      | none =>
        rw [hgc] at hr
        exact Option.noConfusion hr
      | some vals =>
        rw [hgc] at hr
        dsimp only at hr
        by_cases hstr :
            (vals.any fun c => match c with | .str _ => true | _ => false) =
              true
        · rw [if_pos hstr] at hr
          exact Option.noConfusion hr
        · rw [if_neg hstr] at hr
          cases hmax : colMax vals with
          | none =>
            rw [hmax] at hr
            exact Option.noConfusion hr
          | some M =>
            rw [hmax] at hr
            dsimp only at hr
            by_cases hM : M ≤ 99000
            · rw [if_pos hM] at hr
              exact Option.noConfusion hr
            · rw [if_neg hM] at hr
              cases hr
              rw [if_pos (mem_columns_setCol df "Income_Category" _)]
  · intro r hr
    unfold ensure_tax_level at hr ⊢
    by_cases h : "Tax_Level" ∈ df.columns
    · rw [if_pos h] at hr
      cases hr
      rw [if_pos h]
    · rw [if_neg h] at hr
      obtain ⟨vals, hv, hset⟩ := Option.map_eq_some'.mp hr
      rw [if_pos (hset ▸ mem_columns_setCol df "Tax_Level" _)]

/-- Witness for C6: a dataset that already has `Tax_Level` is returned
unchanged. -/
theorem C6_derivations_idempotent_witness :
    ensure_tax_level ⟨[("Tax_Level", [])]⟩ "Tax" =
      some ⟨[("Tax_Level", [])]⟩ :=
  (C6_derivations_idempotent ⟨[("Tax_Level", [])]⟩ "Tax").2.2.1 (by decide)

/-- C7: `first_col` returns the first candidate (in list order) present
among the dataset's columns — a `some c` result means `c` is a column and
every earlier candidate is not — and returns `none` exactly when no
candidate is a column. It is a pure function of its two arguments. -/
theorem C7_first_col_spec (df : DataFrame) (cs : List String) :
    (∀ c, first_col df cs = some c →
      c ∈ df.columns ∧
      ∃ pre post, cs = pre ++ c :: post ∧ ∀ x ∈ pre, x ∉ df.columns) ∧
    (first_col df cs = none ↔ ∀ c ∈ cs, c ∉ df.columns) := by
  induction cs with
  | nil =>
    constructor
    · intro c hc
      exact Option.noConfusion hc
    · simp [first_col]
  | cons hd tl ih =>
    constructor
    · intro c hc
      simp only [first_col] at hc
      by_cases hmem : hd ∈ df.columns
      · rw [if_pos hmem] at hc
        cases hc
        exact ⟨hmem, [], tl, rfl, by simp⟩
      · rw [if_neg hmem] at hc
        obtain ⟨hcol, pre, post, heq, hpre⟩ := ih.1 c hc
        refine ⟨hcol, hd :: pre, post, by rw [heq]; rfl, ?_⟩
        intro x hx
        rcases List.mem_cons.mp hx with hxh | hxp
        · exact hxh ▸ hmem
        · exact hpre x hxp
    · by_cases hmem : hd ∈ df.columns
      · simp only [first_col, if_pos hmem]
        constructor
        · intro h
          exact Option.noConfusion h
        · intro h
          exact absurd hmem (h hd (by simp))
      · simp only [first_col, if_neg hmem]
        rw [ih.2]
        constructor
        · intro h x hx
          rcases List.mem_cons.mp hx with hxh | hxp
          · exact hxh ▸ hmem
          · exact h x hxp
        · intro h x hx
          exact h x (List.mem_cons_of_mem _ hx)

/-- Witness for C7: on a dataset with single column `Income`, the resolver
skips the absent candidate `Annual_Income` and returns `Income`. -/
theorem C7_first_col_spec_witness :
    "Income" ∈ (DataFrame.mk [("Income", [])]).columns ∧
    ∃ pre post, ["Annual_Income", "Income"] = pre ++ "Income" :: post ∧
      ∀ x ∈ pre, x ∉ (DataFrame.mk [("Income", [])]).columns :=
  (C7_first_col_spec ⟨[("Income", [])]⟩ ["Annual_Income", "Income"]).1
    "Income" (by decide)

/-- C9: a numeric review strictly between 2 and 3 falls through to the
`else` branch of `categorize_review` and gets `"High"`, and a NaN input
gets `"High"` (not `"Unknown"`) from both `categorize_review` and
`map_tax`, since `float(nan)` succeeds and NaN fails every comparison. -/
theorem C9_gap_and_nan (q : ℚ) :
    (2 < q → q < 3 → categorize_review (.num q) = "High") ∧
    categorize_review .nan = "High" ∧
    map_tax .nan = "High" := by
  refine ⟨?_, rfl, rfl⟩
  intro h2 h3
  have h1 : ¬ q ≤ 2 := by linarith
  have hne : q ≠ 3 := by linarith
  simp [categorize_review, cellToFloat, fle, feq, h1, hne]

/-- Witness for C9 at the numeric input `5/2`. -/
theorem C9_gap_and_nan_witness : categorize_review (.num (5/2)) = "High" :=
  (C9_gap_and_nan (5/2)).1 (by norm_num) (by norm_num)

/-- C10: on success each derivation function either returns the dataset
unchanged or appends exactly its target column at the end; every
pre-existing column keeps its name and values, and the appended column has
one entry per entry of the source column (the row count is unchanged). -/
theorem C10_frame_effect (df r : DataFrame) (src : String) :
    (ensure_review_level df src = some r →
      (∀ c ∈ df.columns, r.getCol c = df.getCol c) ∧
      (r = df ∨
        (r.columns = df.columns ++ ["Review_Level"] ∧
          ∃ vals nv, df.getCol src = some vals ∧
            r.getCol "Review_Level" = some nv ∧ nv.length = vals.length))) ∧
    (ensure_income_category df src = some r →
      (∀ c ∈ df.columns, r.getCol c = df.getCol c) ∧
      (r = df ∨
        (r.columns = df.columns ++ ["Income_Category"] ∧
          ∃ vals nv, df.getCol src = some vals ∧
            r.getCol "Income_Category" = some nv ∧
            nv.length = vals.length))) ∧
    (ensure_tax_level df src = some r →
      (∀ c ∈ df.columns, r.getCol c = df.getCol c) ∧
      (r = df ∨
        (r.columns = df.columns ++ ["Tax_Level"] ∧
          ∃ vals nv, df.getCol src = some vals ∧
            r.getCol "Tax_Level" = some nv ∧ nv.length = vals.length))) := by
  refine ⟨?_, ?_, ?_⟩
  · intro hr
    unfold ensure_review_level at hr
    by_cases h : "Review_Level" ∈ df.columns
    · rw [if_pos h] at hr
      cases hr
      exact ⟨fun c _ => rfl, Or.inl rfl⟩
    · rw [if_neg h] at hr
      obtain ⟨vals, hv, hset⟩ := Option.map_eq_some'.mp hr
      subst hset
      exact ⟨fun c hc => getCol_setCol_old df _ c _ h hc,
        Or.inr ⟨columns_setCol_new df _ _ h,
          vals, _, hv, getCol_setCol_self df _ _ h, by simp⟩⟩
  · intro hr
    unfold ensure_income_category at hr
    by_cases h : "Income_Category" ∈ df.columns
    · rw [if_pos h] at hr
      cases hr
      exact ⟨fun c _ => rfl, Or.inl rfl⟩
    · rw [if_neg h] at hr
      cases hgc : df.getCol src with
      | none =>
        rw [hgc] at hr
        exact Option.noConfusion hr
      | some vals =>
        rw [hgc] at hr
        dsimp only at hr
        by_cases hstr :
            (vals.any fun c => match c with | .str _ => true | _ => false) =
              true
        · rw [if_pos hstr] at hr
          exact Option.noConfusion hr
        · rw [if_neg hstr] at hr
          cases hmax : colMax vals with
          | none =>
            rw [hmax] at hr
            exact Option.noConfusion hr
          | some M =>
            rw [hmax] at hr
            dsimp only at hr
            by_cases hM : M ≤ 99000
            · rw [if_pos hM] at hr
              exact Option.noConfusion hr
            · rw [if_neg hM] at hr
              cases hr
              exact ⟨fun c hc => getCol_setCol_old df _ c _ h hc,
                Or.inr ⟨columns_setCol_new df _ _ h,
                  vals, _, rfl, getCol_setCol_self df _ _ h, by simp⟩⟩
  · intro hr
    unfold ensure_tax_level at hr
    by_cases h : "Tax_Level" ∈ df.columns
    · rw [if_pos h] at hr
      cases hr
      exact ⟨fun c _ => rfl, Or.inl rfl⟩
    · rw [if_neg h] at hr
      obtain ⟨vals, hv, hset⟩ := Option.map_eq_some'.mp hr
      subst hset
      exact ⟨fun c hc => getCol_setCol_old df _ c _ h hc,
        Or.inr ⟨columns_setCol_new df _ _ h,
          vals, _, hv, getCol_setCol_self df _ _ h, by simp⟩⟩

/-- Witness for C10: adding `Review_Level` to a one-column dataset leaves
the `Reviews` column unchanged. -/
theorem C10_frame_effect_witness :
    DataFrame.getCol
        ⟨[("Reviews", [Cell.num 4]), ("Review_Level", [Cell.str "High"])]⟩
        "Reviews" =
      DataFrame.getCol ⟨[("Reviews", [Cell.num 4])]⟩ "Reviews" :=
  ((C10_frame_effect ⟨[("Reviews", [Cell.num 4])]⟩
      ⟨[("Reviews", [Cell.num 4]), ("Review_Level", [Cell.str "High"])]⟩
      "Reviews").1 (by decide)).1 "Reviews" (by decide)

end Fresco
